import Mathlib

/-!
Verification of the peer-discovery and identity-verification core in
`nucypher/network/nodes.py` (classes `FleetState`, `Learner`, `VerifiableNode`).

The Python code is shallowly embedded: every method that the claims touch is
translated into an executable Lean function over explicit state.  Python
exceptions are modelled with an explicit error type threaded through results;
mutable attributes of the `Learner` become fields of `LearnerState`, and
mutable attributes of a node object become fields of `NodeRecord` that the
verification functions update and return.  Machine-external effects (the REST
middleware, certificate files, the node storage) are supplied as explicit
environment values describing the observable outcome of each call.
-/

namespace Nodes

/-- Python exceptions that the embedded code can raise.
`attributeError` models `AttributeError` (an attribute that does not exist),
`nameError` models `UnboundLocalError`/`NameError` (a local variable read
before assignment), `noSigningPower` models `NoSigningPower`,
`invalidNode` models `VerifiableNode.InvalidNode` (a subclass of
`SuspiciousActivity`), `wrongMode` models `VerifiableNode.WrongMode` (a
`TypeError`, hence not caught by `except SuspiciousActivity`), and the last
three model the `requests`/TLS transport exceptions. -/
inductive PyError where
  | invalidNode
  | wrongMode
  | runtimeError
  | attributeError
  | nameError
  | valueError
  | noSigningPower
  | notEnoughTeachers
  | sslError
  | connectionError
  | readTimeout
  deriving Repr, DecidableEq

/-- A node record: the fields of a `VerifiableNode` / `Ursula` object that the
learning and verification code reads or writes.  Opaque byte values (keys,
addresses, evidence) are modelled as `Nat`; the outcome of the two opaque
cryptographic checks (`_interface_signature.verify(...)` and the
`EthSignature` wallet-address recovery in `_stamp_has_valid_wallet_signature`)
is carried as a boolean field of the record, since the primitives themselves
are external collaborators.  `timestamp = none` models a falsy `_timestamp`
(`NOT_SIGNED`); `interface_signature_some = false` models a falsy
`_interface_signature_object`.  Candidate nodes handled by the learner are
strangers without a `SigningPower`, so the lazy `_sign_and_date_interface_info`
path raises `NoSigningPower` for them (nodes.py lines 804-820). -/
structure NodeRecord where
  checksum_public_address : Nat
  canonical_public_address : Nat
  rest_host : Nat
  cert_common_name : Nat
  timestamp : Option Nat
  interface_signature_some : Bool
  interface_signature_valid : Bool
  evidence : Option Nat
  wallet_signature_recovers : Bool
  verifying_key : Nat
  encrypting_key : Nat
  federated_only : Bool
  verified_stamp : Bool
  verified_interface : Bool
  verified_node : Bool
  node_bytes : List Nat
  deriving Repr, DecidableEq

/-- The decoded body of a `node_information` response, as produced by
`self._internal_splitter(response.content)` (nodes.py lines 762-770). -/
structure NodeInfoResponse where
  status_code : Nat
  verifying_key : Nat
  encrypting_key : Nat
  public_address : Nat
  identity_evidence : Option Nat
  deriving Repr, DecidableEq

/-- Observable outcome of one `network_middleware.node_information` call:
either a response, or one of the transport exceptions that
`Learner.remember_node` distinguishes (nodes.py lines 279-284). -/
inductive TransportOutcome where
  | ok (resp : NodeInfoResponse)
  | sslError
  | connectionError
  | readTimeout
  deriving Repr, DecidableEq

/-- `VerifiableNode._stamp_has_valid_wallet_signature` (nodes.py 688-696):
false when the evidence is `NOT_SIGNED`, otherwise the recovery outcome. -/
def stamp_has_valid_wallet_signature (n : NodeRecord) : Bool :=
  match n.evidence with
  | none => false
  | some _ => n.wallet_signature_recovers

/-- `VerifiableNode.stamp_is_valid` (nodes.py 698-712).  Returns the record
with `verified_stamp` possibly set, together with the raised error, if any. -/
def stamp_is_valid (n : NodeRecord) : NodeRecord × Option PyError :=
  if stamp_has_valid_wallet_signature n then
    ({ n with verified_stamp := true }, none)
  else if n.federated_only ∧ n.evidence = none then
    (n, some PyError.wrongMode)
  else
    (n, some PyError.invalidNode)

/-- `VerifiableNode.interface_is_valid` (nodes.py 714-725).  Building the
message forces the lazy `timestamp` property and then the lazy
`_interface_signature` property; for a stranger either one raises
`NoSigningPower` when absent.  Otherwise `verified_interface` is assigned the
outcome of the signature check and `InvalidNode` is raised on failure. -/
def interface_is_valid (n : NodeRecord) : NodeRecord × Option PyError :=
  match n.timestamp with
  | none => (n, some PyError.noSigningPower)
  | some _ =>
    if n.interface_signature_some then
      let n' := { n with verified_interface := n.interface_signature_valid }
      if n.interface_signature_valid then (n', none)
      else (n', some PyError.invalidNode)
    else
      (n, some PyError.noSigningPower)

/-- `VerifiableNode.validate_metadata` (nodes.py 732-740): interface check
first (skipped when already `verified_interface`), then the stamp check
(skipped when already `verified_stamp`), with `WrongMode` suppressed when
`accept_federated_only` is set. -/
def validate_metadata (n : NodeRecord) (accept_federated_only : Bool) :
    NodeRecord × Option PyError :=
  let step1 : NodeRecord × Option PyError :=
    if n.verified_interface then (n, none) else interface_is_valid n
  match step1 with
  | (n1, some e) => (n1, some e)
  | (n1, none) =>
    if n1.verified_stamp then (n1, none)
    else
      match stamp_is_valid n1 with
      | (n2, some PyError.wrongMode) =>
        if accept_federated_only then (n2, none) else (n2, some PyError.wrongMode)
      | (n2, e) => (n2, e)

/-- The four comparisons of `verify_node` between the live `node_information`
response and the stored record (nodes.py 772-775): verifying key, encrypting
key, canonical address, and identity evidence. -/
def respMatches (resp : NodeInfoResponse) (n : NodeRecord) : Prop :=
  resp.verifying_key = n.verifying_key ∧
  resp.encrypting_key = n.encrypting_key ∧
  resp.public_address = n.canonical_public_address ∧
  resp.identity_evidence = n.evidence

instance (resp : NodeInfoResponse) (n : NodeRecord) :
    Decidable (respMatches resp n) := by
  unfold respMatches
  infer_instance

/-- Result of `VerifiableNode.verify_node`: the (possibly mutated) record, the
raised error if any, whether the call returned `True` (it returns `None` on
the full-verification success path), and how many `node_information` network
calls it made. -/
structure VerifyResult where
  record : NodeRecord
  err : Option PyError
  retTrue : Bool
  netCalls : Nat
  deriving Repr, DecidableEq

/-- `VerifiableNode.verify_node` (nodes.py 742-787).  `net` is the observable
outcome of the single `network_middleware.node_information` call. -/
def verify_node (n : NodeRecord) (net : TransportOutcome)
    (accept_federated_only force : Bool) : VerifyResult :=
  if ¬ force ∧ n.verified_node then
    { record := n, err := none, retTrue := true, netCalls := 0 }
  else
    match validate_metadata n accept_federated_only with
    | (n1, some e) => { record := n1, err := some e, retTrue := false, netCalls := 0 }
    | (n1, none) =>
      match net with
      | TransportOutcome.sslError =>
        { record := n1, err := some PyError.sslError, retTrue := false, netCalls := 1 }
      | TransportOutcome.connectionError =>
        { record := n1, err := some PyError.connectionError, retTrue := false, netCalls := 1 }
      | TransportOutcome.readTimeout =>
        { record := n1, err := some PyError.readTimeout, retTrue := false, netCalls := 1 }
      | TransportOutcome.ok resp =>
        if resp.status_code ≠ 200 then
          { record := n1, err := some PyError.runtimeError, retTrue := false, netCalls := 1 }
        else
          if respMatches resp n1 then
            { record := { n1 with verified_node := true }, err := none,
              retTrue := false, netCalls := 1 }
          else
            { record := n1, err := some PyError.invalidNode, retTrue := false,
              netCalls := 1 }

/-- Mutable learner attributes read or written by the embedded methods.
`known_nodes` models the insertion-ordered `FleetState` dict (address to
record, keys unique); `fleet_checksum`/`fleet_nickname` model
`FleetState._checksum`/`_nickname` (`none` is the falsy `NO_KNOWN_NODES`
marker).  `crashed = none` models the fact that `Learner.__init__` never
assigns `self._crashed`, so reading the attribute raises `AttributeError`;
`_crash_gracefully` assigns the failure object, modelled as
`some (some f)` (`some none` would be an assigned falsy value, which no code
path of the repository ever produces, but it keeps the truthiness test of the
attribute expressible). -/
structure LearnerState where
  known_nodes : List (Nat × NodeRecord)
  fleet_checksum : Option Nat
  fleet_nickname : Option Nat
  learning_round : Nat
  rounds_without_new_nodes : Nat
  learning_interval : Nat
  crashed : Option (Option Nat)
  learning_listeners : List (Nat × List Nat)
  node_ids_to_learn_about_immediately : List Nat
  teacher_nodes : List NodeRecord
  current_teacher : Option NodeRecord
  unresponsive_seed_nodes : List Nat
  done_seeding : Bool
  federated_only : Bool
  save_metadata : Bool
  learning_task_running : Bool
  deriving Repr, DecidableEq

/-- Result of running an embedded `Learner` method: the state after the call
together with either the Python return value or the raised exception. -/
structure LRes (α : Type) where
  s : LearnerState
  out : Except PyError α
  deriving Repr

/-- Lookup in a Python dict modelled as an insertion-ordered association
list with unique keys. -/
def dictGet (m : List (Nat × NodeRecord)) (k : Nat) : Option NodeRecord :=
  match m with
  | [] => none
  | (k1, v1) :: rest => if k1 = k then some v1 else dictGet rest k

/-- `d[k] = v` on a Python dict: replaces the value in place when the key is
present, appends at the end otherwise. -/
def dictInsert (m : List (Nat × NodeRecord)) (k : Nat) (v : NodeRecord) :
    List (Nat × NodeRecord) :=
  match m with
  | [] => [(k, v)]
  | (k1, v1) :: rest =>
    if k1 = k then (k, v) :: rest else (k1, v1) :: dictInsert rest k v

/-- `list(d.values())` of the modelled dict, in insertion order. -/
def dictValues (m : List (Nat × NodeRecord)) : List NodeRecord :=
  m.map (fun p => p.2)

/-- `self._learning_listeners.pop(addr, tuple())`: removes the entry for the
key (the popped listener queues live outside the learner state). -/
def listenersPop (m : List (Nat × List Nat)) (k : Nat) : List (Nat × List Nat) :=
  m.filter (fun p => p.1 != k)

/-- `set.discard` on a set modelled as a duplicate-free list. -/
def setDiscard (l : List Nat) (k : Nat) : List Nat :=
  l.filter (fun a => a != k)

/-- `set.add` on a set modelled as a duplicate-free list. -/
def setAdd (l : List Nat) (k : Nat) : List Nat :=
  if l.contains k then l else l ++ [k]

/-- A candidate node as it reaches the learner: the record itself, whether
the Python object compares equal to the learner (`node == self`), and the
observable outcome of contacting the node's `node_information` endpoint. -/
structure Candidate where
  node : NodeRecord
  isSelf : Bool
  net : TransportOutcome
  deriving Repr, DecidableEq

/-- `Learner._SHORT_LEARNING_DELAY` (nodes.py 126). -/
def SHORT_LEARNING_DELAY : Nat := 5

/-- `Learner._LONG_LEARNING_DELAY` (nodes.py 127). -/
def LONG_LEARNING_DELAY : Nat := 90

/-- `Learner._ROUNDS_WITHOUT_NODES_AFTER_WHICH_TO_SLOW_DOWN` (nodes.py 129). -/
def ROUNDS_WITHOUT_NODES_AFTER_WHICH_TO_SLOW_DOWN : Nat := 10

/-- `Learner.remember_node` (nodes.py 258-303).

Notable source details reproduced here:
* the stale check reads the lazy `timestamp` property of both records, which
  raises `NoSigningPower` for a stranger whose `_timestamp` is falsy;
* `save_certificate_to_disk` (nodes.py 840-854) raises `ValueError` when the
  record's REST host differs from the certificate's common name;
* the `except (ConnectionError, ReadTimeout)` handler (line 282) reads the
  local `already_known_node`, which is unbound when the node was not already
  known — that read raises `UnboundLocalError` (modelled as `nameError`);
* on the success path line 301 calls `self.update_fleet_stfate()`, an
  attribute that exists nowhere in the repository (the method defined at line
  305 is `update_fleet_state`), so the call raises `AttributeError` after the
  node has already been stored. -/
def remember_node (s : LearnerState) (c : Candidate)
    (force_verification_check update_fleet_state : Bool) : LRes Bool :=
  if c.isSelf then ⟨s, Except.ok false⟩
  else
    let addr := c.node.checksum_public_address
    let known0 := dictGet s.known_nodes addr
    let stale : Option (LRes Bool) :=
      match known0 with
      | none => none
      | some old =>
        match c.node.timestamp with
        | none => some ⟨s, Except.error PyError.noSigningPower⟩
        | some tN =>
          match old.timestamp with
          | none => some ⟨s, Except.error PyError.noSigningPower⟩
          | some tO => if ¬ tN > tO then some ⟨s, Except.ok false⟩ else none
    match stale with
    | some r => r
    | none =>
      if c.node.rest_host ≠ c.node.cert_common_name then
        ⟨s, Except.error PyError.valueError⟩
      else
        let vr := verify_node c.node c.net s.federated_only force_verification_check
        match vr.err with
        | some PyError.sslError => ⟨s, Except.ok false⟩
        | some PyError.connectionError =>
          match known0 with
          | some _ => ⟨s, Except.ok false⟩
          | none => ⟨s, Except.error PyError.nameError⟩
        | some PyError.readTimeout =>
          match known0 with
          | some _ => ⟨s, Except.ok false⟩
          | none => ⟨s, Except.error PyError.nameError⟩
        | some e => ⟨s, Except.error e⟩
        | none =>
          let s1 := { s with
            learning_listeners := listenersPop s.learning_listeners addr,
            known_nodes := dictInsert s.known_nodes addr vr.record,
            node_ids_to_learn_about_immediately :=
              setDiscard s.node_ids_to_learn_about_immediately addr }
          if update_fleet_state then ⟨s1, Except.error PyError.attributeError⟩
          else ⟨s1, Except.ok true⟩

/-- Modelled from the spec: `keccak_digest` (imported from
`nucypher.crypto.api`, which is not part of this repository) is an opaque
deterministic digest over a byte string; the spec treats the cryptographic
primitives as external collaborators, and the properties proved here use only
that the digest is a function of its input bytes. -/
def keccak_digest (bs : List Nat) : Nat :=
  bs.foldl (fun a b => a * 1000003 + (b + 1)) 7

/-- Modelled from the spec: `nickname_from_seed` (imported from
`nucypher.network.nicknames`, not part of this repository) derives a
deterministic decorative label from the checksum. -/
def nickname_from_seed (c : Nat) : Nat := c + 1

/-- `Learner.sorted_nodes` (nodes.py 254-256): the known nodes sorted by
checksum address. -/
def sorted_nodes (m : List (Nat × NodeRecord)) : List NodeRecord :=
  List.insertionSort
    (fun a b => a.checksum_public_address ≤ b.checksum_public_address)
    (dictValues m)

/-- The checksum value computed by `Learner.update_fleet_state` (nodes.py
307): the digest of the concatenated serialized bytes of the sorted nodes. -/
def fleet_checksum_value (m : List (Nat × NodeRecord)) : Nat :=
  keccak_digest (List.flatten ((sorted_nodes m).map NodeRecord.node_bytes))

/-- `Learner.update_fleet_state` (nodes.py 305-308); assigning
`FleetState.checksum` also recomputes the nickname (nodes.py 88-91). -/
def update_fleet_state (s : LearnerState) : LearnerState :=
  let c := fleet_checksum_value s.known_nodes
  { s with fleet_checksum := some c, fleet_nickname := some (nickname_from_seed c) }

/-- `Learner._adjust_learning` (nodes.py 501-518). -/
def adjust_learning (s : LearnerState) (node_list : List NodeRecord) :
    LearnerState :=
  match node_list with
  | _ :: _ =>
    { s with rounds_without_new_nodes := 0,
             learning_interval := SHORT_LEARNING_DELAY }
  | [] =>
    let s1 := { s with rounds_without_new_nodes := s.rounds_without_new_nodes + 1 }
    if s1.rounds_without_new_nodes > ROUNDS_WITHOUT_NODES_AFTER_WHICH_TO_SLOW_DOWN then
      { s1 with learning_interval := LONG_LEARNING_DELAY }
    else s1

/-- Outcome of the `network_middleware.get_nodes_via_rest` call in
`learn_from_teacher_node`: a connection error, or a status code together with
the candidate batch decoded from the signed payload
(`signature_splitter` + `Ursula.batch_from_bytes`, external parsing). -/
inductive TeacherFetch where
  | connError
  | ok (status : Nat) (candidates : List Candidate)

/-- The machine-external behaviour observed during one learning round:
the teacher's peer-list response, the `random.shuffle` permutation used by
`shuffled_known_nodes`, and the outcomes of the seeding pass
(`Ursula.from_seednode_metadata` per configured seed: `none` models a `False`
result for an unresponsive seed) and of `node_storage.all()`. -/
structure RoundEnv where
  fetch : TeacherFetch
  shuffle : List NodeRecord → List NodeRecord
  seeds : List (Nat × Option Candidate)
  stored_nodes : List Candidate

/-- The seeding loop inside `Learner.load_seednodes` (nodes.py 214-234):
each responsive seed is removed from `unresponsive_seed_nodes` and passed to
`remember_node` with default arguments (`update_fleet_state=True`). -/
def seedLoop (s : LearnerState) (seeds : List (Nat × Option Candidate)) :
    LRes Unit :=
  match seeds with
  | [] => ⟨s, Except.ok ()⟩
  | (sid, res) :: rest =>
    match res with
    | none =>
      seedLoop
        { s with unresponsive_seed_nodes := setAdd s.unresponsive_seed_nodes sid }
        rest
    | some c =>
      let s1 := { s with
        unresponsive_seed_nodes := setDiscard s.unresponsive_seed_nodes sid }
      let r := remember_node s1 c false true
      match r.out with
      | Except.error e => ⟨r.s, Except.error e⟩
      | Except.ok _ => seedLoop r.s rest

/-- `Learner.read_nodes_from_storage` (nodes.py 249-252): every stored node is
passed to `remember_node` with default arguments. -/
def storageLoop (s : LearnerState) (stored : List Candidate) : LRes Unit :=
  match stored with
  | [] => ⟨s, Except.ok ()⟩
  | c :: rest =>
    let r := remember_node s c false true
    match r.out with
    | Except.error e => ⟨r.s, Except.error e⟩
    | Except.ok _ => storageLoop r.s rest

/-- `Learner.load_seednodes` (nodes.py 201-247) with its default
`read_storages=True`, as invoked from `cycle_teacher_node`.  A no-op once
`done_seeding` is set. -/
def load_seednodes (s : LearnerState) (env : RoundEnv) : LRes Unit :=
  if s.done_seeding then ⟨s, Except.ok ()⟩
  else
    let r := seedLoop s env.seeds
    match r.out with
    | Except.error e => ⟨r.s, Except.error e⟩
    | Except.ok _ =>
      storageLoop { r.s with done_seeding := true } env.stored_nodes

/-- `Learner.select_teacher_nodes` (nodes.py 363-369): shuffle the known
nodes, raise `NotEnoughTeachers` when there are none, otherwise extend the
teacher deque. -/
def select_teacher_nodes (s : LearnerState) (env : RoundEnv) : LRes Unit :=
  let shuffled := env.shuffle (dictValues s.known_nodes)
  match shuffled with
  | [] => ⟨s, Except.error PyError.notEnoughTeachers⟩
  | _ :: _ => ⟨{ s with teacher_nodes := s.teacher_nodes ++ shuffled }, Except.ok ()⟩

/-- Sequencing of two embedded statements: when the first raises, the
exception propagates with the state it left behind; otherwise the
continuation runs on that state with the returned value. -/
def LRes.bind {α β : Type} (r : LRes α) (k : α → LearnerState → LRes β) :
    LRes β :=
  match r.out with
  | Except.error e => ⟨r.s, Except.error e⟩
  | Except.ok a => k a r.s

/-- `Learner.cycle_teacher_node` (nodes.py 371-387): retry seeding while some
seeds are unresponsive, refill the teacher deque when empty, then pop the next
teacher from the right end of the deque. -/
def cycle_teacher_node (s : LearnerState) (env : RoundEnv) : LRes Unit :=
  LRes.bind
    (if s.unresponsive_seed_nodes.isEmpty then ⟨s, Except.ok ()⟩
     else load_seednodes s env)
    (fun _ s1 =>
      LRes.bind
        (if s1.teacher_nodes.isEmpty then select_teacher_nodes s1 env
         else ⟨s1, Except.ok ()⟩)
        (fun _ s2 =>
          match s2.teacher_nodes.getLast? with
          | none => ⟨s2, Except.error PyError.notEnoughTeachers⟩
          | some t =>
            ⟨{ s2 with teacher_nodes := s2.teacher_nodes.dropLast,
                       current_teacher := some t }, Except.ok ()⟩))

/-- `Learner.current_teacher_node` (nodes.py 389-398) with its default
`cycle=False`: cycle only when no current teacher is set, then return the
current teacher. -/
def current_teacher_node (s : LearnerState) (env : RoundEnv) :
    LRes (Option NodeRecord) :=
  LRes.bind
    (if s.current_teacher.isNone then cycle_teacher_node s env
     else ⟨s, Except.ok ()⟩)
    (fun _ s1 => ⟨s1, Except.ok s1.current_teacher⟩)

/-- The `try`/`except` at the top of the candidate loop in
`learn_from_teacher_node` (nodes.py 601-620): run `verify_node` (eager) or
`validate_metadata` (lazy) on the candidate, catching only
`SuspiciousActivity` — which includes `InvalidNode` but not `WrongMode`,
`NoSigningPower` or transport errors.  Returns the (possibly mutated) node
object together with the exception that escaped the handler, if any. -/
def candidatePreVerify (c : Candidate) (fed eager : Bool) :
    NodeRecord × Option PyError :=
  if eager then
    let vr := verify_node c.node c.net fed false
    match vr.err with
    | some PyError.invalidNode => (vr.record, none)
    | some e => (vr.record, some e)
    | none => (vr.record, none)
  else
    match validate_metadata c.node fed with
    | (n1, some PyError.invalidNode) => (n1, none)
    | (n1, some e) => (n1, some e)
    | (n1, none) => (n1, none)

/-- The candidate loop of `learn_from_teacher_node` (nodes.py 600-623).
Crucially, the call `new = self.remember_node(node)` at line 621 sits outside
the `try`/`except` of `candidatePreVerify`, so it runs even for a candidate
whose verification just failed, and any exception it raises propagates out of
the loop.  The returned list is `new_nodes`. -/
def processCandidates (s : LearnerState) (cands : List Candidate) (eager : Bool) :
    LRes (List NodeRecord) :=
  match cands with
  | [] => ⟨s, Except.ok []⟩
  | c :: rest =>
    let pre := candidatePreVerify c s.federated_only eager
    match pre.2 with
    | some e => ⟨s, Except.error e⟩
    | none =>
      let r := remember_node s { c with node := pre.1 } false true
      match r.out with
      | Except.error e => ⟨r.s, Except.error e⟩
      | Except.ok newFlag =>
        let rr := processCandidates r.s rest eager
        match rr.out with
        | Except.error e => ⟨rr.s, Except.error e⟩
        | Except.ok tail =>
          ⟨rr.s, Except.ok (if newFlag then pre.1 :: tail else tail)⟩

/-- `Learner.learn_from_teacher_node` (nodes.py 549-639).  The round counter
is incremented first; `NotEnoughTeachers` from teacher selection is caught and
ends the round; a connection error on the peer-list request cycles the teacher
and ends the round; a non-200 status raises `RuntimeError`; otherwise the
candidate batch is processed, the backoff policy adjusted, and the teacher
cycled.  Returns `none` where the Python method returns `None`. -/
def learn_from_teacher_node (s : LearnerState) (env : RoundEnv) (eager : Bool) :
    LRes (Option (List NodeRecord)) :=
  let s0 := { s with learning_round := s.learning_round + 1 }
  let rt := current_teacher_node s0 env
  match rt.out with
  | Except.error PyError.notEnoughTeachers => ⟨rt.s, Except.ok none⟩
  | Except.error e => ⟨rt.s, Except.error e⟩
  | Except.ok teacher? =>
    let s1 := rt.s
    match teacher? with
    | none => ⟨s1, Except.error PyError.attributeError⟩
    | some _ =>
      match env.fetch with
      | TeacherFetch.connError =>
        LRes.bind (cycle_teacher_node s1 env)
          (fun _ s2 => ⟨s2, Except.ok none⟩)
      | TeacherFetch.ok status cands =>
        if status ≠ 200 then ⟨s1, Except.error PyError.runtimeError⟩
        else
          LRes.bind (processCandidates s1 cands eager)
            (fun new_nodes s2 =>
              LRes.bind (cycle_teacher_node (adjust_learning s2 new_nodes) env)
                (fun _ s3 => ⟨s3, Except.ok (some new_nodes)⟩))

/-- `n` consecutive learning rounds that yield zero new nodes, as seen by the
backoff policy `_adjust_learning`. -/
def zeroRounds : Nat → LearnerState → LearnerState
  | 0, s => s
  | n + 1, s => adjust_learning (zeroRounds n s) []

/-- Result of `block_until_specific_nodes_are_known`: the recorded fault, a
normal boolean return, a raised exception, or exhaustion of the observed
snapshots (the Python loop would keep spinning). -/
inductive BlockResult where
  | fault (f : Nat)
  | finished (b : Bool)
  | raised (e : PyError)
  | fuelOut
  deriving Repr, DecidableEq

/-- `canonical_addresses.issubset(self.__known_nodes)`: dict membership is by
key. -/
def subsetKnown (addresses : List Nat) (m : List (Nat × NodeRecord)) : Bool :=
  addresses.all (fun a => (dictGet m a).isSome)

/-- `canonical_addresses.difference(self.__known_nodes)`. -/
def stillUnknown (addresses : List Nat) (m : List (Nat × NodeRecord)) : List Nat :=
  addresses.filter (fun a => (dictGet m a).isNone)

/-- `Learner.block_until_specific_nodes_are_known` (nodes.py 461-499) with its
default `learn_on_this_thread=False`.  The loop body runs against a sequence
of snapshots of the learner state (the learning loop mutates it concurrently),
each paired with the value of `(maya.now() - start).seconds > timeout` at that
iteration.  The first statement of every iteration is `if self._crashed:`;
since `__init__` never assigns `_crashed`, that read raises `AttributeError`
whenever `_crash_gracefully` has not run, and returns the recorded (truthy)
failure object when it has, so the rest of the loop body is reachable only
from the never-produced "assigned but falsy" value of the attribute. -/
def block_until_specific_nodes_are_known
    (snaps : List (LearnerState × Bool)) (addresses : List Nat)
    (allow_missing : Nat) : BlockResult :=
  match snaps with
  | [] => BlockResult.fuelOut
  | (s, timedOut) :: rest =>
    match s.crashed with
    | none => BlockResult.raised PyError.attributeError
    | some (some f) => BlockResult.fault f
    | some none =>
      if subsetKnown addresses s.known_nodes then BlockResult.finished true
      else if timedOut then
        let su := stillUnknown addresses s.known_nodes
        if su.length ≤ allow_missing then BlockResult.finished false
        else BlockResult.raised PyError.notEnoughTeachers
      else block_until_specific_nodes_are_known rest addresses allow_missing

/-- A candidate is "impersonated" when its `node_information` endpoint answers
with a 200 response whose cryptographic material differs from the record, and
the record has not previously completed full verification (candidates decoded
by `Ursula.batch_from_bytes` always start with `_verified_node = False`). -/
def BadCandidate (c : Candidate) : Prop :=
  ∃ resp, c.net = TransportOutcome.ok resp ∧ resp.status_code = 200 ∧
    ¬ respMatches resp c.node ∧ c.node.verified_node = false

/-- A concrete unverified node record with consistent crypto material, used to
instantiate witnesses. -/
def nodeAt (a : Nat) : NodeRecord where
  checksum_public_address := a
  canonical_public_address := a
  rest_host := 7
  cert_common_name := 7
  timestamp := some 100
  interface_signature_some := true
  interface_signature_valid := true
  evidence := some 5
  wallet_signature_recovers := true
  verifying_key := 11
  encrypting_key := 12
  federated_only := false
  verified_stamp := false
  verified_interface := false
  verified_node := false
  node_bytes := [a, a + 1]

/-- The `node_information` response that honestly describes a record. -/
def matchingResp (n : NodeRecord) : NodeInfoResponse where
  status_code := 200
  verifying_key := n.verifying_key
  encrypting_key := n.encrypting_key
  public_address := n.canonical_public_address
  identity_evidence := n.evidence

/-- The learner state as `Learner.__init__` leaves it (no known nodes, falsy
fleet checksum, unassigned `_crashed`), with seeding already done. -/
def initialState : LearnerState where
  known_nodes := []
  fleet_checksum := none
  fleet_nickname := none
  learning_round := 0
  rounds_without_new_nodes := 0
  learning_interval := SHORT_LEARNING_DELAY
  crashed := none
  learning_listeners := []
  node_ids_to_learn_about_immediately := []
  teacher_nodes := []
  current_teacher := none
  unresponsive_seed_nodes := []
  done_seeding := true
  federated_only := false
  save_metadata := false
  learning_task_running := true

/-- A round environment with no seeding work and an identity shuffle. -/
def quietEnv (fetch : TeacherFetch) : RoundEnv where
  fetch := fetch
  shuffle := fun l => l
  seeds := []
  stored_nodes := []

/-- A candidate presenting the record `nodeAt a` honestly. -/
def candAt (a : Nat) : Candidate where
  node := nodeAt a
  isSelf := false
  net := TransportOutcome.ok (matchingResp (nodeAt a))

/-- A candidate whose interface signature does not verify: `validate_metadata`
raises `InvalidNode` on it. -/
def badSigCand : Candidate where
  node := { nodeAt 2 with interface_signature_valid := false }
  isSelf := false
  net := TransportOutcome.ok (matchingResp { nodeAt 2 with interface_signature_valid := false })

/-- A learner that already knows one node, which is also its current teacher. -/
def teacherState : LearnerState :=
  { initialState with known_nodes := [(1, nodeAt 1)],
                      current_teacher := some (nodeAt 1) }

/-- A round in which the teacher reports one invalid-signature candidate
followed by one honest fresh candidate. -/
def badThenGoodEnv : RoundEnv :=
  quietEnv (TeacherFetch.ok 200 [badSigCand, candAt 3])

/-- A learner that already knows the node with address 3 and whose learning
loop has not crashed (`_crashed` never assigned). -/
def waitingState : LearnerState :=
  { initialState with known_nodes := [(3, nodeAt 3)] }

/-- The same learner after `_crash_gracefully` recorded the failure `9`. -/
def crashedState : LearnerState :=
  { waitingState with crashed := some (some 9) }

/-- A learner that already knows `nodeAt 1` (stored with timestamp 100). -/
def staleKnownState : LearnerState :=
  { initialState with known_nodes := [(1, nodeAt 1)] }

/-- A candidate record for the same identity with the older timestamp 50. -/
def staleCand : Candidate :=
  { candAt 1 with node := { nodeAt 1 with timestamp := some 50 } }

/-- A live `node_information` response for `nodeAt 5` whose verifying key has
been swapped out: the signature of an impersonation attempt. -/
def impostorResp : NodeInfoResponse :=
  { matchingResp (nodeAt 5) with verifying_key := 99 }

/-- `m` agrees with `n` on every field except possibly the two metadata
verification flags (`verified_stamp`, `verified_interface`): the shape of a
record after `validate_metadata`. -/
def sameData (m n : NodeRecord) : Prop :=
  m = { n with verified_interface := m.verified_interface,
               verified_stamp := m.verified_stamp }

/-- `m` agrees with `n` on every field except possibly the three verification
flags: the shape of a record after `verify_node`. -/
def sameDataV (m n : NodeRecord) : Prop :=
  m = { n with verified_interface := m.verified_interface,
               verified_stamp := m.verified_stamp,
               verified_node := m.verified_node }

theorem sameData_refl (n : NodeRecord) : sameData n n := rfl

theorem sameData_to_V {m n : NodeRecord} (h : sameData m n) : sameDataV m n := by
  unfold sameData at h
  unfold sameDataV
  rw [h]

theorem sameData_trans {m n p : NodeRecord} (h1 : sameData m n) (h2 : sameData p m) :
    sameData p n := by
  unfold sameData at *
  rw [h1] at h2
  exact h2

theorem sameData_vn {m n : NodeRecord} (h : sameData m n) :
    m.verified_node = n.verified_node := by
  rw [h]

theorem sameDataV_data {m n : NodeRecord} (h : sameDataV m n) :
    m.checksum_public_address = n.checksum_public_address ∧
    m.canonical_public_address = n.canonical_public_address ∧
    m.rest_host = n.rest_host ∧
    m.cert_common_name = n.cert_common_name ∧
    m.timestamp = n.timestamp ∧
    m.evidence = n.evidence ∧
    m.verifying_key = n.verifying_key ∧
    m.encrypting_key = n.encrypting_key := by
  rw [h]
  exact ⟨rfl, rfl, rfl, rfl, rfl, rfl, rfl, rfl⟩

theorem interface_is_valid_sameData (n : NodeRecord) :
    sameData (interface_is_valid n).1 n := by
  unfold interface_is_valid sameData
  repeat' split
  all_goals rfl

theorem stamp_is_valid_sameData (n : NodeRecord) :
    sameData (stamp_is_valid n).1 n := by
  unfold stamp_is_valid sameData
  repeat' split
  all_goals rfl

theorem validate_metadata_sameData (n : NodeRecord) (a : Bool) :
    sameData (validate_metadata n a).1 n := by
  rcases hstep : (if n.verified_interface then (n, (none : Option PyError))
      else interface_is_valid n) with ⟨n1, e1⟩
  have hsd1 : sameData n1 n := by
    by_cases h : n.verified_interface
    · rw [if_pos h] at hstep
      cases hstep
      exact sameData_refl n
    · rw [if_neg h] at hstep
      have hi := interface_is_valid_sameData n
      rw [hstep] at hi
      exact hi
  unfold validate_metadata
  rw [hstep]
  cases e1 with
  | some e => exact hsd1
  | none =>
    by_cases hvs : n1.verified_stamp
    · simp only [if_pos hvs]
      exact hsd1
    · simp only [if_neg hvs]
      rcases hst : stamp_is_valid n1 with ⟨n2, e2⟩
      have hsd2 : sameData n2 n1 := by
        have hs := stamp_is_valid_sameData n1
        rw [hst] at hs
        exact hs
      have hsd := sameData_trans hsd1 hsd2
      cases e2 with
      | none => exact hsd
      | some e =>
        cases e <;> simp only [] <;> try exact hsd
        split <;> exact hsd

theorem verify_node_sameDataV (n : NodeRecord) (net : TransportOutcome)
    (acc f : Bool) : sameDataV (verify_node n net acc f).record n := by
  have hval := validate_metadata_sameData n acc
  rcases hv : validate_metadata n acc with ⟨n1, e1⟩
  rw [hv] at hval
  have hvV : sameDataV n1 n := sameData_to_V hval
  unfold verify_node
  split
  · exact sameData_to_V (sameData_refl n)
  · rw [hv]
    cases e1 with
    | some e => exact hvV
    | none =>
      cases net with
      | sslError => exact hvV
      | connectionError => exact hvV
      | readTimeout => exact hvV
      | ok resp =>
        by_cases hs : resp.status_code ≠ 200
        · simp only [if_pos hs]
          exact hvV
        · simp only [if_neg hs]
          by_cases hm : respMatches resp n1
          · simp only [if_pos hm]
            unfold sameDataV at hvV ⊢
            conv_lhs => rw [hvV]
          · simp only [if_neg hm]
            exact hvV

theorem verify_node_err_vn (n : NodeRecord) (net : TransportOutcome) (acc f : Bool)
    (h : (verify_node n net acc f).err ≠ none) :
    (verify_node n net acc f).record.verified_node = n.verified_node := by
  have hval := validate_metadata_sameData n acc
  rcases hv : validate_metadata n acc with ⟨n1, e1⟩
  rw [hv] at hval
  have hvn : n1.verified_node = n.verified_node := sameData_vn hval
  unfold verify_node at h ⊢
  by_cases hc : ¬ f = true ∧ n.verified_node = true
  · rw [if_pos hc] at h
    simp at h
  · rw [if_neg hc] at h ⊢
    rw [hv] at h ⊢
    cases e1 with
    | some e => exact hvn
    | none =>
      cases net with
      | sslError => exact hvn
      | connectionError => exact hvn
      | readTimeout => exact hvn
      | ok resp =>
        by_cases hs : resp.status_code ≠ 200
        · simp only [if_pos hs] at h ⊢
          exact hvn
        · simp only [if_neg hs] at h ⊢
          by_cases hm : respMatches resp n1
          · simp only [if_pos hm] at h
            simp at h
          · simp only [if_neg hm] at h ⊢
            exact hvn

theorem respMatches_of_sameDataV {m n : NodeRecord} (resp : NodeInfoResponse)
    (h : sameDataV m n) : respMatches resp m ↔ respMatches resp n := by
  obtain ⟨-, hca, -, -, -, hev, hvk, hek⟩ := sameDataV_data h
  unfold respMatches
  rw [hca, hev, hvk, hek]

theorem verify_node_mismatch (n : NodeRecord) (resp : NodeInfoResponse)
    (acc f : Bool) (hv : n.verified_node = false)
    (hst : resp.status_code = 200) (hmm : ¬ respMatches resp n) :
    ((validate_metadata n acc).2 = none →
      (verify_node n (TransportOutcome.ok resp) acc f).err =
        some PyError.invalidNode) ∧
    (verify_node n (TransportOutcome.ok resp) acc f).err ≠ none := by
  have hval := validate_metadata_sameData n acc
  rcases hvq : validate_metadata n acc with ⟨n1, e1⟩
  rw [hvq] at hval
  have hmm1 : ¬ respMatches resp n1 := by
    rw [respMatches_of_sameDataV resp (sameData_to_V hval)]
    exact hmm
  unfold verify_node
  have hcond : ¬ (¬ f = true ∧ n.verified_node = true) := by
    simp [hv]
  rw [if_neg hcond, hvq]
  cases e1 with
  | some e =>
    constructor
    · intro habs
      simp at habs
    · simp
  | none =>
    have hs : ¬ resp.status_code ≠ 200 := by
      simp [hst]
    simp only [if_neg hs, if_neg hmm1]
    constructor
    · intro _
      trivial
    · simp

theorem dictGet_dictInsert (m : List (Nat × NodeRecord)) (k : Nat) (v : NodeRecord)
    (a : Nat) :
    dictGet (dictInsert m k v) a = if k = a then some v else dictGet m a := by
  induction m with
  | nil => simp [dictInsert, dictGet]
  | cons p rest ih =>
    obtain ⟨k1, v1⟩ := p
    by_cases h : k1 = k
    · subst h
      simp only [dictInsert, if_pos rfl, dictGet]
      by_cases ha : k1 = a
      · simp [ha]
      · simp [ha]
    · simp only [dictInsert, if_neg h, dictGet, ih]
      by_cases ha : k1 = a
      · subst ha
        have hka : ¬ k = k1 := fun hh => h hh.symm
        simp [hka]
      · simp [ha]

/-- The state after `remember_node` is either unchanged (self, stale, or any
failure path) or the unique committed-store mutation, which requires the
verification to have succeeded. -/
theorem remember_node_state_cases (s : LearnerState) (c : Candidate) (f u : Bool) :
    (remember_node s c f u).s = s ∨
    ((verify_node c.node c.net s.federated_only f).err = none ∧
     (remember_node s c f u).s = { s with
        learning_listeners :=
          listenersPop s.learning_listeners c.node.checksum_public_address,
        known_nodes := dictInsert s.known_nodes c.node.checksum_public_address
          (verify_node c.node c.net s.federated_only f).record,
        node_ids_to_learn_about_immediately :=
          setDiscard s.node_ids_to_learn_about_immediately
            c.node.checksum_public_address }) := by
  unfold remember_node
  dsimp only
  split
  · exact Or.inl rfl
  · split
    · rename_i r heq
      repeat' split at heq
      all_goals first
        | (injection heq with h1; subst h1; exact Or.inl rfl)
        | injection heq
    · repeat' split
      all_goals first
        | exact Or.inl rfl
        | exact Or.inr ⟨by assumption, rfl⟩

theorem remember_node_round (s : LearnerState) (c : Candidate) (f u : Bool) :
    (remember_node s c f u).s.learning_round = s.learning_round := by
  rcases remember_node_state_cases s c f u with h | ⟨-, h⟩ <;> rw [h]

theorem remember_node_unresponsive (s : LearnerState) (c : Candidate) (f u : Bool) :
    (remember_node s c f u).s.unresponsive_seed_nodes = s.unresponsive_seed_nodes := by
  rcases remember_node_state_cases s c f u with h | ⟨-, h⟩ <;> rw [h]

theorem remember_node_other_addr (s : LearnerState) (c : Candidate) (f u : Bool)
    (a : Nat) (h : a ≠ c.node.checksum_public_address) :
    dictGet (remember_node s c f u).s.known_nodes a = dictGet s.known_nodes a := by
  rcases remember_node_state_cases s c f u with hc | ⟨-, hc⟩
  · rw [hc]
  · rw [hc]
    simp only [dictGet_dictInsert, if_neg (Ne.symm h)]

theorem remember_node_bad_known (s : LearnerState) (c : Candidate) (f u : Bool)
    (resp : NodeInfoResponse) (hnet : c.net = TransportOutcome.ok resp)
    (hst : resp.status_code = 200) (hmm : ¬ respMatches resp c.node)
    (hvn : c.node.verified_node = false) :
    (remember_node s c f u).s.known_nodes = s.known_nodes := by
  have hne := (verify_node_mismatch c.node resp s.federated_only f hvn hst hmm).2
  rcases remember_node_state_cases s c f u with hc | ⟨herr, -⟩
  · rw [hc]
  · rw [hnet] at herr
    exact absurd herr hne

/-- C1. Stale-update rejection: for a learner that already stores a record
`old` under the candidate's identity, `remember_node` with a timestamp less
than or equal to the stored one is a no-op returning `False`; with a strictly
greater timestamp — and verification succeeding — the stored record is
replaced by the candidate (whose verification flags may have been raised by
the pipeline, all other fields unchanged, as the final `sameDataV` conjunct
states). -/
theorem remember_node_stale_rejection (s : LearnerState) (c : Candidate)
    (old : NodeRecord) (tN tO : Nat) (f u : Bool)
    (hknown : dictGet s.known_nodes c.node.checksum_public_address = some old)
    (htsN : c.node.timestamp = some tN) (htsO : old.timestamp = some tO) :
    (tN ≤ tO → remember_node s c f u = ⟨s, Except.ok false⟩) ∧
    (tO < tN → c.isSelf = false →
      c.node.rest_host = c.node.cert_common_name →
      (verify_node c.node c.net s.federated_only f).err = none →
      dictGet (remember_node s c f u).s.known_nodes
          c.node.checksum_public_address =
        some (verify_node c.node c.net s.federated_only f).record ∧
      sameDataV (verify_node c.node c.net s.federated_only f).record c.node) := by
  constructor
  · intro hle
    unfold remember_node
    dsimp only
    by_cases hself : c.isSelf = true
    · rw [if_pos hself]
    · rw [if_neg hself]
      simp only [hknown, htsN, htsO]
      rw [if_pos (by omega : ¬ tN > tO)]
  · intro hlt hself hcert hverr
    refine ⟨?_, verify_node_sameDataV c.node c.net s.federated_only f⟩
    unfold remember_node
    dsimp only
    rw [if_neg (by simp [hself])]
    simp only [hknown, htsN, htsO]
    rw [if_neg (by omega : ¬ ¬ tN > tO)]
    rw [if_neg (by simp [hcert])]
    simp only [hverr]
    split
    · rw [dictGet_dictInsert, if_pos rfl]
    · rw [dictGet_dictInsert, if_pos rfl]

theorem remember_node_stale_rejection_witness :
    remember_node staleKnownState staleCand false true =
      ⟨staleKnownState, Except.ok false⟩ :=
  (remember_node_stale_rejection staleKnownState staleCand (nodeAt 1) 50 100
    false true rfl rfl rfl).1 (by decide)

/-- C8. Verification idempotence: for every record on which the full pipeline
has already succeeded (`_verified_node` is true), calling `verify_node` again
without `force=True` returns `True` immediately, leaves the record unchanged,
and performs no `node_information` network call. -/
theorem verify_node_idempotent (n : NodeRecord) (net : TransportOutcome)
    (accept_federated_only : Bool) (h : n.verified_node = true) :
    verify_node n net accept_federated_only false =
      { record := n, err := none, retTrue := true, netCalls := 0 } := by
  unfold verify_node
  rw [if_pos ⟨by simp, h⟩]

theorem verify_node_idempotent_witness :
    verify_node { nodeAt 1 with verified_node := true }
        TransportOutcome.connectionError false false =
      { record := { nodeAt 1 with verified_node := true }, err := none,
        retTrue := true, netCalls := 0 } :=
  verify_node_idempotent { nodeAt 1 with verified_node := true }
    TransportOutcome.connectionError false rfl

/-- C2. The checksum freshness invariant fails in the code: a `remember_node`
call that commits a node with `update_fleet_state` enabled raises
`AttributeError` (line 301 calls the nonexistent `update_fleet_stfate`), so
the node is stored while the `FleetState` checksum and nickname keep their
previous (here: `NO_KNOWN_NODES`) values, stale with respect to the current
membership. -/
theorem remember_node_checksum_left_stale :
    (remember_node initialState (candAt 1) false true).out =
        Except.error PyError.attributeError ∧
    (dictGet (remember_node initialState (candAt 1) false true).s.known_nodes
        1).isSome = true ∧
    (remember_node initialState (candAt 1) false true).s.fleet_checksum = none ∧
    (remember_node initialState (candAt 1) false true).s.fleet_checksum ≠
      some (fleet_checksum_value
        (remember_node initialState (candAt 1) false true).s.known_nodes) ∧
    (remember_node initialState (candAt 1) false true).s.fleet_nickname = none := by
  refine ⟨rfl, rfl, rfl, ?_, rfl⟩
  decide

/-- C10. The admission contract fails in the code: a fresh candidate that
passes verification is stored but the call raises `AttributeError` instead of
returning `True` (the `update_fleet_stfate` typo), and a fresh candidate whose
verification hits a connection error raises `UnboundLocalError` (reading the
unbound `already_known_node` at line 282) instead of returning `False` —
though in both failure cases the mapping is indeed left unchanged. -/
theorem remember_node_admission_contract_broken :
    ((remember_node initialState (candAt 2) false true).out =
        Except.error PyError.attributeError ∧
      (dictGet (remember_node initialState (candAt 2) false true).s.known_nodes
          2).isSome = true) ∧
    ((remember_node initialState
          { candAt 2 with net := TransportOutcome.connectionError } false true).out =
        Except.error PyError.nameError ∧
      (remember_node initialState
          { candAt 2 with net := TransportOutcome.connectionError } false true).s =
        initialState) :=
  ⟨⟨rfl, rfl⟩, rfl, rfl⟩

/-- C7. Blocking-wait crash observation: when the loop has crashed the
recorded fault is returned, but when it has not crashed the helper raises
`AttributeError` on its very first `if self._crashed:` check (the attribute is
never initialised), instead of polling until the requested addresses are
known — here they already all are, so the claim would require `True`. -/
theorem block_until_crash_observation_broken :
    block_until_specific_nodes_are_known [(waitingState, false)] [3] 0 =
      BlockResult.raised PyError.attributeError ∧
    block_until_specific_nodes_are_known [(crashedState, false)] [3] 0 =
      BlockResult.fault 9 :=
  ⟨rfl, rfl⟩

/-- C6 counterexample: starting from a fresh learner (zero-yield counter 0,
short interval), after exactly `_ROUNDS_WITHOUT_NODES_AFTER_WHICH_TO_SLOW_DOWN`
consecutive zero-yield rounds the polling interval is still the short delay,
not the long one: `_adjust_learning` slows down only when the counter becomes
strictly greater than the threshold. -/
theorem adaptive_backoff_counterexample :
    (zeroRounds ROUNDS_WITHOUT_NODES_AFTER_WHICH_TO_SLOW_DOWN
        initialState).learning_interval ≠ LONG_LEARNING_DELAY ∧
    (zeroRounds ROUNDS_WITHOUT_NODES_AFTER_WHICH_TO_SLOW_DOWN
        initialState).learning_interval = SHORT_LEARNING_DELAY := by
  refine ⟨?_, rfl⟩
  decide

theorem adjust_learning_nil_rounds (u : LearnerState) :
    (adjust_learning u []).rounds_without_new_nodes =
      u.rounds_without_new_nodes + 1 := by
  unfold adjust_learning
  dsimp only
  split <;> rfl

theorem zeroRounds_counter (n : Nat) (s : LearnerState) :
    (zeroRounds n s).rounds_without_new_nodes =
      s.rounds_without_new_nodes + n := by
  induction n with
  | zero => rfl
  | succ k ih =>
    simp only [zeroRounds]
    rw [adjust_learning_nil_rounds, ih]
    omega

theorem adjust_learning_nil_slow (u : LearnerState)
    (h : u.rounds_without_new_nodes + 1 >
      ROUNDS_WITHOUT_NODES_AFTER_WHICH_TO_SLOW_DOWN) :
    (adjust_learning u []).learning_interval = LONG_LEARNING_DELAY := by
  unfold adjust_learning
  dsimp only
  rw [if_pos h]

/-- C6 amended: after `K + 1` consecutive zero-yield rounds (one more than the
threshold `K = _ROUNDS_WITHOUT_NODES_AFTER_WHICH_TO_SLOW_DOWN`, since
`_adjust_learning` compares with strict `>`), the polling interval equals
`_LONG_LEARNING_DELAY`; and every round yielding at least one new node resets
the interval to `_SHORT_LEARNING_DELAY` and the zero-yield counter to zero. -/
theorem adaptive_backoff_amended (s t : LearnerState) (l : List NodeRecord)
    (h0 : s.rounds_without_new_nodes = 0) (hl : l ≠ []) :
    (zeroRounds (ROUNDS_WITHOUT_NODES_AFTER_WHICH_TO_SLOW_DOWN + 1)
        s).learning_interval = LONG_LEARNING_DELAY ∧
    (adjust_learning t l).learning_interval = SHORT_LEARNING_DELAY ∧
    (adjust_learning t l).rounds_without_new_nodes = 0 := by
  refine ⟨?_, ?_, ?_⟩
  · have hc := zeroRounds_counter ROUNDS_WITHOUT_NODES_AFTER_WHICH_TO_SLOW_DOWN s
    rw [h0] at hc
    simp only [zeroRounds] at hc ⊢
    apply adjust_learning_nil_slow
    rw [hc]
    decide
  · cases l with
    | nil => exact absurd rfl hl
    | cons a as => rfl
  · cases l with
    | nil => exact absurd rfl hl
    | cons a as => rfl

theorem adaptive_backoff_amended_witness :
    (zeroRounds (ROUNDS_WITHOUT_NODES_AFTER_WHICH_TO_SLOW_DOWN + 1)
        initialState).learning_interval = LONG_LEARNING_DELAY ∧
    (adjust_learning initialState [nodeAt 4]).learning_interval =
      SHORT_LEARNING_DELAY ∧
    (adjust_learning initialState [nodeAt 4]).rounds_without_new_nodes = 0 :=
  adaptive_backoff_amended initialState initialState [nodeAt 4] rfl
    (List.cons_ne_nil _ _)

theorem seedLoop_round (seeds : List (Nat × Option Candidate)) :
    ∀ s : LearnerState, (seedLoop s seeds).s.learning_round = s.learning_round := by
  induction seeds with
  | nil =>
    intro s
    rfl
  | cons p rest ih =>
    intro s
    obtain ⟨sid, res⟩ := p
    cases res with
    | none =>
      unfold seedLoop
      exact ih _
    | some c =>
      unfold seedLoop
      dsimp only
      split

      · rw [remember_node_round]
      · rw [ih, remember_node_round]

theorem storageLoop_round (stored : List Candidate) :
    ∀ s : LearnerState, (storageLoop s stored).s.learning_round = s.learning_round := by
  induction stored with
  | nil =>
    intro s
    rfl
  | cons c rest ih =>
    intro s
    unfold storageLoop
    dsimp only
    split
    · rw [remember_node_round]
    · rw [ih, remember_node_round]

theorem load_seednodes_round (s : LearnerState) (env : RoundEnv) :
    (load_seednodes s env).s.learning_round = s.learning_round := by
  unfold load_seednodes
  split
  · rfl
  · dsimp only
    split
    · rw [seedLoop_round]
    · rw [storageLoop_round, seedLoop_round]

theorem select_teacher_nodes_round (s : LearnerState) (env : RoundEnv) :
    (select_teacher_nodes s env).s.learning_round = s.learning_round := by
  unfold select_teacher_nodes
  dsimp only
  split <;> rfl

theorem LRes_bind_field {α β γ : Type} (g : LearnerState → γ) (r : LRes α)
    (k : α → LearnerState → LRes β)
    (hk : ∀ a s1, g (k a s1).s = g s1) :
    g (LRes.bind r k).s = g r.s := by
  unfold LRes.bind
  split
  · rfl
  · rename_i a heq
    exact hk a r.s

theorem cycle_teacher_node_round (s : LearnerState) (env : RoundEnv) :
    (cycle_teacher_node s env).s.learning_round = s.learning_round := by
  unfold cycle_teacher_node
  rw [LRes_bind_field LearnerState.learning_round]
  · split
    · rfl
    · exact load_seednodes_round s env
  · intro a s1
    rw [LRes_bind_field LearnerState.learning_round]
    · split
      · exact select_teacher_nodes_round s1 env
      · rfl
    · intro b s2
      split <;> rfl

theorem current_teacher_node_round (s : LearnerState) (env : RoundEnv) :
    (current_teacher_node s env).s.learning_round = s.learning_round := by
  unfold current_teacher_node
  rw [LRes_bind_field LearnerState.learning_round]
  · split
    · rw [cycle_teacher_node_round]
    · rfl
  · intro a s1
    rfl

theorem processCandidates_round (cands : List Candidate) :
    ∀ (s : LearnerState) (eager : Bool),
      (processCandidates s cands eager).s.learning_round = s.learning_round := by
  induction cands with
  | nil =>
    intro s eager
    rfl
  | cons c rest ih =>
    intro s eager
    unfold processCandidates
    dsimp only
    split
    · rfl
    · split
      · rw [remember_node_round]
      · split
        · rw [ih, remember_node_round]
        · rw [ih, remember_node_round]

theorem adjust_learning_round (s : LearnerState) (l : List NodeRecord) :
    (adjust_learning s l).learning_round = s.learning_round := by
  unfold adjust_learning
  dsimp only
  split
  · rfl
  · split <;> rfl

/-- C9. Round counting: every call to `learn_from_teacher_node` increments
`_learning_round` by exactly one, whatever the environment does — in
particular a round that fails early at teacher selection with
`NotEnoughTeachers`, a round whose teacher is unreachable, a round that
aborts on a bad status or on a candidate fault, and a successful round all
leave the counter at its previous value plus one. -/
theorem learning_round_increment (s : LearnerState) (env : RoundEnv)
    (eager : Bool) :
    (learn_from_teacher_node s env eager).s.learning_round =
      s.learning_round + 1 := by
  unfold learn_from_teacher_node
  dsimp only
  split
  · rw [current_teacher_node_round]
  · rw [current_teacher_node_round]
  · split
    · rw [current_teacher_node_round]
    · split
      · rw [LRes_bind_field LearnerState.learning_round]
        · rw [cycle_teacher_node_round, current_teacher_node_round]
        · intro a s1
          rfl
      · split
        · rw [current_teacher_node_round]
        · rw [LRes_bind_field LearnerState.learning_round]
          · rw [processCandidates_round, current_teacher_node_round]
          · intro a s1
            rw [LRes_bind_field LearnerState.learning_round]
            · rw [cycle_teacher_node_round, adjust_learning_round]
            · intro b s2
              rfl

theorem sorted_nodes_perm_eq (m1 m2 : List (Nat × NodeRecord))
    (hperm : m1.Perm m2)
    (hkeys : ((dictValues m1).map NodeRecord.checksum_public_address).Nodup) :
    sorted_nodes m1 = sorted_nodes m2 := by
  have hv : (dictValues m1).Perm (dictValues m2) := hperm.map _
  have hkeys2 : ((dictValues m2).map NodeRecord.checksum_public_address).Nodup :=
    ((hv.map _).nodup_iff).mp hkeys
  haveI : IsTotal NodeRecord
      (fun a b : NodeRecord =>
        a.checksum_public_address ≤ b.checksum_public_address) :=
    ⟨fun a b => Nat.le_total _ _⟩
  haveI : IsTrans NodeRecord
      (fun a b : NodeRecord =>
        a.checksum_public_address ≤ b.checksum_public_address) :=
    ⟨fun _ _ _ hab hbc => Nat.le_trans hab hbc⟩
  haveI : IsAntisymm NodeRecord
      (fun a b : NodeRecord =>
        a.checksum_public_address < b.checksum_public_address) :=
    ⟨fun _ _ h1 h2 => absurd h2 (Nat.not_lt.mpr (Nat.le_of_lt h1))⟩
  have hsymm : ∀ {x y : NodeRecord},
      (x.checksum_public_address ≠ y.checksum_public_address) →
      (y.checksum_public_address ≠ x.checksum_public_address) :=
    fun h e => h e.symm
  have hstrict : ∀ (m : List (Nat × NodeRecord)),
      ((dictValues m).map NodeRecord.checksum_public_address).Nodup →
      List.Sorted
        (fun a b : NodeRecord =>
          a.checksum_public_address < b.checksum_public_address)
        (List.insertionSort
          (fun a b : NodeRecord =>
            a.checksum_public_address ≤ b.checksum_public_address)
          (dictValues m)) := by
    intro m hk
    have hsorted := List.sorted_insertionSort
      (fun a b : NodeRecord =>
        a.checksum_public_address ≤ b.checksum_public_address) (dictValues m)
    have hkp : List.Pairwise
        (fun a b : NodeRecord =>
          a.checksum_public_address ≠ b.checksum_public_address)
        (dictValues m) := List.pairwise_map.mp hk
    have hkp2 : List.Pairwise
        (fun a b : NodeRecord =>
          a.checksum_public_address ≠ b.checksum_public_address)
        (List.insertionSort
          (fun a b : NodeRecord =>
            a.checksum_public_address ≤ b.checksum_public_address)
          (dictValues m)) :=
      ((List.perm_insertionSort _ _).pairwise_iff hsymm).mpr hkp
    exact (hsorted.and hkp2).imp (fun h => lt_of_le_of_ne h.1 h.2)
  have h1 := hstrict m1 hkeys
  have h2 := hstrict m2 hkeys2
  have hps : (List.insertionSort
      (fun a b : NodeRecord =>
        a.checksum_public_address ≤ b.checksum_public_address)
      (dictValues m1)).Perm
      (List.insertionSort
        (fun a b : NodeRecord =>
          a.checksum_public_address ≤ b.checksum_public_address)
        (dictValues m2)) :=
    (List.perm_insertionSort _ _).trans
      (hv.trans (List.perm_insertionSort _ _).symm)
  unfold sorted_nodes
  exact List.eq_of_perm_of_sorted hps h1 h2

/-- C5. Checksum determinism: the fleet checksum computed by
`update_fleet_state` depends only on the identity-to-record mapping, not on
the order in which the nodes were remembered — two fleet dicts that are
permutations of one another (with the per-dict unique addresses) yield the
same checksum and nickname. -/
theorem fleet_checksum_deterministic (s1 s2 : LearnerState)
    (hperm : s1.known_nodes.Perm s2.known_nodes)
    (hkeys : ((dictValues s1.known_nodes).map
      NodeRecord.checksum_public_address).Nodup) :
    (update_fleet_state s1).fleet_checksum =
      (update_fleet_state s2).fleet_checksum ∧
    (update_fleet_state s1).fleet_nickname =
      (update_fleet_state s2).fleet_nickname := by
  have h := sorted_nodes_perm_eq _ _ hperm hkeys
  unfold update_fleet_state
  dsimp only
  unfold fleet_checksum_value
  rw [h]
  exact ⟨rfl, rfl⟩

theorem fleet_checksum_deterministic_witness :
    (update_fleet_state
        { initialState with known_nodes := [(1, nodeAt 1), (2, nodeAt 2)] }).fleet_checksum =
      (update_fleet_state
        { initialState with known_nodes := [(2, nodeAt 2), (1, nodeAt 1)] }).fleet_checksum ∧
    (update_fleet_state
        { initialState with known_nodes := [(1, nodeAt 1), (2, nodeAt 2)] }).fleet_nickname =
      (update_fleet_state
        { initialState with known_nodes := [(2, nodeAt 2), (1, nodeAt 1)] }).fleet_nickname :=
  fleet_checksum_deterministic
    { initialState with known_nodes := [(1, nodeAt 1), (2, nodeAt 2)] }
    { initialState with known_nodes := [(2, nodeAt 2), (1, nodeAt 1)] }
    (by decide) (by decide)

theorem LRes_bind_field2 {α β γ : Type} (g : LearnerState → γ)
    (P : LearnerState → Prop) (r : LRes α) (k : α → LearnerState → LRes β)
    (hP : P r.s) (hk : ∀ a s1, P s1 → g (k a s1).s = g s1) :
    g (LRes.bind r k).s = g r.s := by
  unfold LRes.bind
  split
  · rfl
  · rename_i a heq
    exact hk a r.s hP

theorem candidatePreVerify_sameDataV (c : Candidate) (fed eager : Bool) :
    sameDataV (candidatePreVerify c fed eager).1 c.node := by
  unfold candidatePreVerify
  split
  · dsimp only
    split
    · exact verify_node_sameDataV c.node c.net fed false
    · exact verify_node_sameDataV c.node c.net fed false
    · exact verify_node_sameDataV c.node c.net fed false
  · rcases hval : validate_metadata c.node fed with ⟨n1, e1⟩
    have hv := validate_metadata_sameData c.node fed
    rw [hval] at hv
    cases e1 with
    | none => exact sameData_to_V hv
    | some e => cases e <;> exact sameData_to_V hv

theorem candidatePreVerify_bad_vn (c : Candidate) (fed eager : Bool)
    (resp : NodeInfoResponse) (hnet : c.net = TransportOutcome.ok resp)
    (hst : resp.status_code = 200) (hmm : ¬ respMatches resp c.node)
    (hvn : c.node.verified_node = false) :
    (candidatePreVerify c fed eager).1.verified_node = false := by
  unfold candidatePreVerify
  split
  · have hne : (verify_node c.node c.net fed false).err ≠ none := by
      rw [hnet]
      exact (verify_node_mismatch c.node resp fed false hvn hst hmm).2
    have hrec := verify_node_err_vn c.node c.net fed false hne
    rw [hvn] at hrec
    dsimp only
    split
    · exact hrec
    · exact hrec
    · exact hrec
  · rcases hval : validate_metadata c.node fed with ⟨n1, e1⟩
    have hv := validate_metadata_sameData c.node fed
    rw [hval] at hv
    have h1 : n1.verified_node = false := by
      rw [sameData_vn hv, hvn]
    cases e1 with
    | none => exact h1
    | some e => cases e <;> exact h1

theorem select_teacher_nodes_state (s : LearnerState) (env : RoundEnv) :
    (select_teacher_nodes s env).s.known_nodes = s.known_nodes ∧
    (select_teacher_nodes s env).s.unresponsive_seed_nodes =
      s.unresponsive_seed_nodes := by
  unfold select_teacher_nodes
  dsimp only
  split <;> exact ⟨rfl, rfl⟩

theorem cycle_teacher_node_state (s : LearnerState) (env : RoundEnv)
    (hun : s.unresponsive_seed_nodes = []) :
    (cycle_teacher_node s env).s.known_nodes = s.known_nodes ∧
    (cycle_teacher_node s env).s.unresponsive_seed_nodes = [] := by
  have hemp : s.unresponsive_seed_nodes.isEmpty = true := by
    rw [hun]
    rfl
  constructor
  · unfold cycle_teacher_node
    rw [LRes_bind_field LearnerState.known_nodes]
    · rw [if_pos hemp]
    · intro a s1
      rw [LRes_bind_field LearnerState.known_nodes]
      · split
        · exact (select_teacher_nodes_state s1 env).1
        · rfl
      · intro b s2
        split <;> rfl
  · unfold cycle_teacher_node
    rw [LRes_bind_field LearnerState.unresponsive_seed_nodes]
    · rw [if_pos hemp]
      exact hun
    · intro a s1
      rw [LRes_bind_field LearnerState.unresponsive_seed_nodes]
      · split
        · exact (select_teacher_nodes_state s1 env).2
        · rfl
      · intro b s2
        split <;> rfl

theorem current_teacher_node_state (s : LearnerState) (env : RoundEnv)
    (hun : s.unresponsive_seed_nodes = []) :
    (current_teacher_node s env).s.known_nodes = s.known_nodes ∧
    (current_teacher_node s env).s.unresponsive_seed_nodes = [] := by
  constructor
  · unfold current_teacher_node
    rw [LRes_bind_field LearnerState.known_nodes]
    · split
      · exact (cycle_teacher_node_state s env hun).1
      · rfl
    · intro a s1
      rfl
  · unfold current_teacher_node
    rw [LRes_bind_field LearnerState.unresponsive_seed_nodes]
    · split
      · exact (cycle_teacher_node_state s env hun).2
      · exact hun
    · intro a s1
      rfl

theorem adjust_learning_state (s : LearnerState) (l : List NodeRecord) :
    (adjust_learning s l).known_nodes = s.known_nodes ∧
    (adjust_learning s l).unresponsive_seed_nodes = s.unresponsive_seed_nodes := by
  unfold adjust_learning
  dsimp only
  split
  · exact ⟨rfl, rfl⟩
  · split <;> exact ⟨rfl, rfl⟩

theorem processCandidates_unresponsive (cands : List Candidate) :
    ∀ (s : LearnerState) (eager : Bool),
      (processCandidates s cands eager).s.unresponsive_seed_nodes =
        s.unresponsive_seed_nodes := by
  induction cands with
  | nil =>
    intro s eager
    rfl
  | cons c rest ih =>
    intro s eager
    unfold processCandidates
    dsimp only
    split
    · rfl
    · split
      · rw [remember_node_unresponsive]
      · split
        · rw [ih, remember_node_unresponsive]
        · rw [ih, remember_node_unresponsive]

theorem processCandidates_bad_addr (A : Nat) (cands : List Candidate) :
    ∀ (s : LearnerState) (eager : Bool),
      (∀ c2 ∈ cands, c2.node.checksum_public_address ≠ A ∨ BadCandidate c2) →
      dictGet (processCandidates s cands eager).s.known_nodes A =
        dictGet s.known_nodes A := by
  induction cands with
  | nil =>
    intro s eager _
    rfl
  | cons c rest ih =>
    intro s eager h
    have hc := h c (List.mem_cons_self c rest)
    have hrest : ∀ c2 ∈ rest,
        c2.node.checksum_public_address ≠ A ∨ BadCandidate c2 :=
      fun c2 hm => h c2 (List.mem_cons_of_mem c hm)
    have hkey : dictGet (remember_node s
        { c with node := (candidatePreVerify c s.federated_only eager).1 }
        false true).s.known_nodes A = dictGet s.known_nodes A := by
      rcases hc with hne | hbad
      · apply remember_node_other_addr
        show A ≠ (candidatePreVerify c s.federated_only eager).1.checksum_public_address
        rw [(sameDataV_data
          (candidatePreVerify_sameDataV c s.federated_only eager)).1]
        exact Ne.symm hne
      · obtain ⟨resp, hnet, hst, hmm, hvn⟩ := hbad
        have hmm1 : ¬ respMatches resp (candidatePreVerify c s.federated_only eager).1 := by
          rw [respMatches_of_sameDataV resp
            (candidatePreVerify_sameDataV c s.federated_only eager)]
          exact hmm
        have hvn1 := candidatePreVerify_bad_vn c s.federated_only eager resp
          hnet hst hmm hvn
        rw [remember_node_bad_known s
          { c with node := (candidatePreVerify c s.federated_only eager).1 }
          false true resp hnet hst hmm1 hvn1]
    unfold processCandidates
    dsimp only
    split
    · rfl
    · split
      · exact hkey
      · split
        · rw [ih _ _ hrest, hkey]
        · rw [ih _ _ hrest, hkey]

/-- C3. Impersonation detection: for a record whose live `node_information`
response carries a verifying key, encrypting key, canonical address or
identity evidence different from the stored values, (a) whenever the
stamp-and-interface metadata validation passes — so the liveness check is the
stage that decides — `verify_node` raises `InvalidNode`; (b) `remember_node`
never changes `known_nodes` when fed such a candidate; and (c) a learning
round whose teacher reports such a candidate (among others at different
addresses, with no seeding pending) leaves `known_nodes` unchanged at that
identity. -/
theorem impersonated_node_never_inserted
    (n : NodeRecord) (resp : NodeInfoResponse) (acc : Bool)
    (hvn : n.verified_node = false)
    (hst : resp.status_code = 200)
    (hmm : ¬ respMatches resp n) :
    ((validate_metadata n acc).2 = none →
      ∀ f : Bool, (verify_node n (TransportOutcome.ok resp) acc f).err =
        some PyError.invalidNode) ∧
    (∀ (s : LearnerState) (isSelf f u : Bool),
      (remember_node s ⟨n, isSelf, TransportOutcome.ok resp⟩ f u).s.known_nodes =
        s.known_nodes) ∧
    (∀ (s : LearnerState) (env : RoundEnv) (eager : Bool)
        (pre post : List Candidate) (c : Candidate),
      c.node = n → c.net = TransportOutcome.ok resp →
      s.unresponsive_seed_nodes = [] →
      env.fetch = TeacherFetch.ok 200 (pre ++ c :: post) →
      (∀ c2 ∈ pre, c2.node.checksum_public_address ≠ n.checksum_public_address) →
      (∀ c2 ∈ post, c2.node.checksum_public_address ≠ n.checksum_public_address) →
      dictGet (learn_from_teacher_node s env eager).s.known_nodes
          n.checksum_public_address =
        dictGet s.known_nodes n.checksum_public_address) := by
  refine ⟨?_, ?_, ?_⟩
  · intro hmeta f
    exact (verify_node_mismatch n resp acc f hvn hst hmm).1 hmeta
  · intro s isSelf f u
    exact remember_node_bad_known s ⟨n, isSelf, TransportOutcome.ok resp⟩ f u
      resp rfl hst hmm hvn
  · intro s env eager pre post c hcn hcnet hun henv hpre hpost
    have hbadc : BadCandidate c := by
      refine ⟨resp, hcnet, hst, ?_, ?_⟩
      · rw [hcn]
        exact hmm
      · rw [hcn]
        exact hvn
    have hall : ∀ c2 ∈ pre ++ c :: post,
        c2.node.checksum_public_address ≠ n.checksum_public_address ∨
          BadCandidate c2 := by
      intro c2 hm
      rcases List.mem_append.mp hm with hml | hmr
      · exact Or.inl (hpre c2 hml)
      · rcases List.mem_cons.mp hmr with hmc | hmp
        · subst hmc
          exact Or.inr hbadc
        · exact Or.inl (hpost c2 hmp)
    have hcur := current_teacher_node_state
      { s with learning_round := s.learning_round + 1 } env hun
    unfold learn_from_teacher_node
    dsimp only
    simp only [henv]
    split
    · rw [hcur.1]
    · rw [hcur.1]
    · split
      · rw [hcur.1]
      · rw [if_neg (by decide : ¬ ((200 : Nat) ≠ 200))]
        rw [LRes_bind_field2
          (fun st => dictGet st.known_nodes n.checksum_public_address)
          (fun st => st.unresponsive_seed_nodes = [])]
        · rw [processCandidates_bad_addr _ _ _ _ hall, hcur.1]
        · rw [processCandidates_unresponsive]
          exact hcur.2
        · intro a s1 hP1
          rw [LRes_bind_field
            (fun st => dictGet st.known_nodes n.checksum_public_address)]
          · have hun2 : (adjust_learning s1 a).unresponsive_seed_nodes = [] := by
              rw [(adjust_learning_state s1 a).2, hP1]
            rw [(cycle_teacher_node_state _ env hun2).1,
              (adjust_learning_state s1 a).1]
          · intro b s3
            rfl

theorem impersonated_node_never_inserted_witness :
    (verify_node (nodeAt 5) (TransportOutcome.ok impostorResp) false false).err =
      some PyError.invalidNode :=
  (impersonated_node_never_inserted (nodeAt 5) impostorResp false rfl rfl
    (by decide)).1 rfl false

/-- C4. Per-candidate fault containment fails in the code: in a round whose
teacher returns an invalid-signature candidate followed by an honest fresh
one, the `except SuspiciousActivity` handler logs the bad candidate but the
loop then still calls `remember_node` on it (line 621 is outside the `try`),
whose re-verification raises `InvalidNode` out of the loop — the round aborts
and the later honest candidate is never processed.  The round counter had
already been incremented. -/
theorem invalid_candidate_aborts_round :
    (learn_from_teacher_node teacherState badThenGoodEnv false).out =
        Except.error PyError.invalidNode ∧
    dictGet (learn_from_teacher_node teacherState badThenGoodEnv false).s.known_nodes
        3 = none ∧
    (learn_from_teacher_node teacherState badThenGoodEnv false).s.learning_round =
      teacherState.learning_round + 1 :=
  ⟨rfl, rfl, rfl⟩

end Nodes
